import Mathlib

/-!
Shallow embedding of the downloader-middleware pipeline of the repository
(src/scrapy/core/downloader/middleware.py), of the Response body setter
(src/scrapy/http/response/__init__.py), and of the feed-export close routine
(src/scrapy/extensions/feedexport.py), together with theorems settling the
specification claims about them.

Modelling conventions:
- Python object identity is modelled by a numeric id field (`rid`, `qid`, ...);
  the WeakSet `_tracked_responses` keys responses by identity, so the tracker
  stores response ids.
- Bytes objects are modelled as `List Nat`; only their length matters to the
  tracker.
- A middleware method's behaviour at a call site is a Lean function returning
  an `Out` value: `None`, a Response, a Request, or some other object (carried
  as the name of its type, which is all the pipeline inspects about it).
- The Twisted Deferred chain `mustbe_deferred(process_request);
  addErrback(process_exception); addCallback(process_response)` is modelled by
  explicit `Except` plumbing in `download`: a failure from `process_request`
  goes to `process_exception`; a success (or a recovery by
  `process_exception`) goes to `process_response`; a failure that
  `process_exception` does not recover skips `process_response`.
-/

namespace Scrapy

/-- A Response value object: an identity and a byte body
(scrapy.http.Response; the pipeline only touches identity and body length). -/
structure Response where
  rid : Nat
  body : List Nat
deriving DecidableEq

/-- A Request value object, identified by `qid`. -/
structure Request where
  qid : Nat
deriving DecidableEq

/-- A transport fault (a Twisted Failure raised by the download function),
identified by `fid`. -/
structure Fault where
  fid : Nat
deriving DecidableEq

/-- State of the in-flight size tracker of `DownloaderMiddlewareManager`:
the counter `response_active_size` and the weak membership set
`_tracked_responses`. Each tracked entry records the response identity and
the body size captured by the `finalize` callback at tracking time. -/
structure Tracker where
  response_active_size : Int
  tracked_responses : List (Nat × Nat)
deriving DecidableEq

/-- Membership test of the weak set `_tracked_responses`
(`response in self._tracked_responses`), by identity. -/
def memTracked (st : Tracker) (rid : Nat) : Bool :=
  st.tracked_responses.any (fun p => p.1 == rid)

/-- Embeds `DownloaderMiddlewareManager._count_response_size`: a no-op when
the response is already tracked; otherwise add it to the set, add its body
length to the counter, and record the size for the finalizer. -/
def count_response_size (st : Tracker) (r : Response) : Tracker :=
  if memTracked st r.rid then st
  else
    { response_active_size := st.response_active_size + r.body.length,
      tracked_responses := (r.rid, r.body.length) :: st.tracked_responses }

/-- Embeds `DownloaderMiddlewareManager._discount_response_size`: subtract a
recorded size from the counter. -/
def discount_response_size (st : Tracker) (size : Nat) : Tracker :=
  { st with response_active_size := st.response_active_size - size }

/-- Removes the first entry with the given response id (the WeakSet entry
dropped when the response dies). -/
def removeFirstTracked : List (Nat × Nat) → Nat → List (Nat × Nat)
  | [], _ => []
  | p :: ps, rid => if p.1 == rid then ps else p :: removeFirstTracked ps rid

/-- Embeds the release path of a tracked response: when the response with id
`rid` becomes unreachable, its WeakSet entry disappears and the `finalize`
callback runs `_discount_response_size` with the size recorded at tracking
time. A response never tracked has no finalizer, hence the no-op branch. -/
def finalize_response (st : Tracker) (rid : Nat) : Tracker :=
  match st.tracked_responses.find? (fun p => p.1 == rid) with
  | some p =>
      discount_response_size
        { st with tracked_responses := removeFirstTracked st.tracked_responses rid } p.2
  | none => st

/-- Sum of the recorded sizes of the tracked entries. -/
def trackedSum (l : List (Nat × Nat)) : Nat :=
  (l.map Prod.snd).sum

/-- The tracker invariant claimed by the spec: the counter equals the sum of
the body lengths of the responses currently in the tracking set. -/
def trackerInv (st : Tracker) : Prop :=
  st.response_active_size = (trackedSum st.tracked_responses : Int)

theorem trackedSum_nil : trackedSum [] = 0 := rfl

theorem trackedSum_cons (p : Nat × Nat) (l : List (Nat × Nat)) :
    trackedSum (p :: l) = p.2 + trackedSum l := by
  simp [trackedSum]

theorem trackedSum_removeFirst (l : List (Nat × Nat)) (rid : Nat) (p : Nat × Nat)
    (h : l.find? (fun q => q.1 == rid) = some p) :
    trackedSum (removeFirstTracked l rid) + p.2 = trackedSum l := by
  induction l with
  | nil => simp [List.find?] at h
  | cons a as ih =>
      by_cases hc : (a.1 == rid) = true
      · simp only [List.find?, hc] at h
        cases h
        simp [removeFirstTracked, hc, trackedSum_cons]
        omega
      · simp only [List.find?, hc] at h
        simp only [removeFirstTracked, hc, if_false, Bool.false_eq_true]
        rw [trackedSum_cons, trackedSum_cons]
        have := ih h
        omega

/-- Possible return value of a middleware method, as the pipeline inspects it:
`None`, a Response, a Request, or an object of some other type (carried as its
type name, the only thing the pipeline reads from it). -/
inductive Out where
  | noneOut : Out
  | resp : Response → Out
  | req : Request → Out
  | other : String → Out
deriving DecidableEq

/-- The type name the validation error reports for a middleware result. -/
def Out.tyName : Out → String
  | Out.noneOut => "NoneType"
  | Out.resp _ => "Response"
  | Out.req _ => "Request"
  | Out.other ty => ty

/-- A Response-or-Request, the successful value flowing down the chain. -/
inductive RorR where
  | resp : Response → RorR
  | req : Request → RorR
deriving DecidableEq

/-- A Twisted Failure travelling down the errback side of the chain: either an
`_InvalidOutput` raised by the validation checks (carrying the middleware
qualname and the received type name used in its message) or a fault raised by
the download function. -/
inductive PipeErr where
  | invalidOutput : String → String → PipeErr
  | downloadFault : Fault → PipeErr
deriving DecidableEq

/-- Outcome of the external download transport `download_func`. -/
inductive DlResult where
  | ok : Response → DlResult
  | fault : Fault → DlResult
deriving DecidableEq

/-- A registered `process_request` method: the middleware qualname and the
method's behaviour at this call site. -/
structure ReqStage where
  name : String
  fn : Request → Out

/-- A registered `process_response` method; it receives the current
response. -/
structure RespStage where
  name : String
  fn : Request → Response → Out

/-- A registered `process_exception` method; it receives the failure's
underlying exception. -/
structure ExcStage where
  name : String
  fn : Request → PipeErr → Out

/-- Embeds the inner `process_request` coroutine of
`DownloaderMiddlewareManager.download`: iterate the `process_request` methods;
`None` continues, a value that is neither Response nor Request raises
`_InvalidOutput`, a Response is tracked and returned, a Request is returned;
when every method returned `None`, call `download_func` (its Response is
returned untracked; its fault travels to the errback side). -/
def process_request (st : Tracker) (stages : List ReqStage)
    (download_func : Request → DlResult) (request : Request) :
    Tracker × Except PipeErr RorR :=
  match stages with
  | [] =>
      match download_func request with
      | DlResult.ok r => (st, Except.ok (RorR.resp r))
      | DlResult.fault f => (st, Except.error (PipeErr.downloadFault f))
  | s :: rest =>
      match s.fn request with
      | Out.noneOut => process_request st rest download_func request
      | Out.resp r => (count_response_size st r, Except.ok (RorR.resp r))
      | Out.req q => (st, Except.ok (RorR.req q))
      | Out.other ty => (st, Except.error (PipeErr.invalidOutput s.name ty))

/-- Embeds the inner `process_exception` coroutine: iterate the
`process_exception` methods on the failure; `None` continues, an illegal value
raises `_InvalidOutput`, a Response is tracked and returned, a Request is
returned; when no method recovers, the original failure is returned. -/
def process_exception (st : Tracker) (stages : List ExcStage)
    (request : Request) (failure : PipeErr) : Tracker × Except PipeErr RorR :=
  match stages with
  | [] => (st, Except.error failure)
  | s :: rest =>
      match s.fn request failure with
      | Out.noneOut => process_exception st rest request failure
      | Out.resp r => (count_response_size st r, Except.ok (RorR.resp r))
      | Out.req q => (st, Except.ok (RorR.req q))
      | Out.other ty => (st, Except.error (PipeErr.invalidOutput s.name ty))

/-- The loop of the inner `process_response` coroutine over the
`process_response` methods: a result that is neither Response nor Request
(including `None`) raises `_InvalidOutput`, a Request is returned at once, a
Response is tracked and becomes the current value; the final current Response
is returned. -/
def process_response_loop (st : Tracker) (stages : List RespStage)
    (request : Request) (r : Response) : Tracker × Except PipeErr RorR :=
  match stages with
  | [] => (st, Except.ok (RorR.resp r))
  | s :: rest =>
      match s.fn request r with
      | Out.resp r2 => process_response_loop (count_response_size st r2) rest request r2
      | Out.req q => (st, Except.ok (RorR.req q))
      | out => (st, Except.error (PipeErr.invalidOutput s.name out.tyName))

/-- Embeds the inner `process_response` coroutine: a Request input is returned
unchanged; a Response input runs the loop over the `process_response`
methods. -/
def process_response (st : Tracker) (stages : List RespStage)
    (request : Request) (input : RorR) : Tracker × Except PipeErr RorR :=
  match input with
  | RorR.req q => (st, Except.ok (RorR.req q))
  | RorR.resp r => process_response_loop st stages request r

/-- The three ordered method lists of `self.methods`. -/
structure Stages where
  request_methods : List ReqStage
  response_methods : List RespStage
  exception_methods : List ExcStage

/-- Embeds `DownloaderMiddlewareManager.download`, taking the three lists of
`self.methods` as arguments: the Deferred chain
`mustbe_deferred(process_request); addErrback(process_exception);
addCallback(process_response)`. A failure from `process_request` goes to
`process_exception`; a success goes to `process_response`; a recovery by
`process_exception` goes to `process_response`; an unrecovered failure skips
`process_response` and is the run's outcome. -/
def download (st : Tracker) (request_methods : List ReqStage)
    (response_methods : List RespStage) (exception_methods : List ExcStage)
    (download_func : Request → DlResult) (request : Request) :
    Tracker × Except PipeErr RorR :=
  match process_request st request_methods download_func request with
  | (st1, Except.ok v) => process_response st1 response_methods request v
  | (st1, Except.error e) =>
      match process_exception st1 exception_methods request e with
      | (st2, Except.ok v) => process_response st2 response_methods request v
      | (st2, Except.error e2) => (st2, Except.error e2)

/-- A middleware object, as `_add_middleware` probes it: a qualname and the
three optional methods (`hasattr` is modelled by `Option`). -/
structure MW where
  name : String
  process_request_method : Option (Request → Out)
  process_response_method : Option (Request → Response → Out)
  process_exception_method : Option (Request → PipeErr → Out)

/-- Embeds `DownloaderMiddlewareManager._add_middleware`: `process_request`
is appended to its list; `process_response` and `process_exception` are
prepended (`appendleft`) to theirs. -/
def add_middleware (m : Stages) (mw : MW) : Stages :=
  let m1 :=
    match mw.process_request_method with
    | some f => { m with request_methods := m.request_methods ++ [ReqStage.mk mw.name f] }
    | none => m
  let m2 :=
    match mw.process_response_method with
    | some f => { m1 with response_methods := RespStage.mk mw.name f :: m1.response_methods }
    | none => m1
  match mw.process_exception_method with
  | some f => { m2 with exception_methods := ExcStage.mk mw.name f :: m2.exception_methods }
  | none => m2

/-- Embeds building `self.methods` by calling `_add_middleware` on each
middleware in registration order, starting from empty lists. -/
def from_middlewares (mws : List MW) : Stages :=
  mws.foldl add_middleware (Stages.mk [] [] [])

/-- A feed slot as `FeedExporter.close_spider` reads it: the opened file
(identified by a number), the exported item count, and the `store_empty`
option. -/
structure FeedSlot where
  file : Nat
  itemcount : Nat
  store_empty : Bool
deriving DecidableEq

/-- An observable side effect of `FeedExporter.close_spider` on a slot. -/
inductive FeedAction where
  | finish_exporting : Nat → FeedAction
  | store : Nat → FeedAction
deriving DecidableEq

/-- Embeds the loop of `FeedExporter.close_spider` as the sequence of slot
side effects it performs: a slot with no items and `store_empty` false makes
the method return at once after storing just that slot's file (the
`maybeDeferred` call runs the store immediately); otherwise the slot is
finished and stored and the loop continues. -/
def close_spider : List FeedSlot → List FeedAction
  | [] => []
  | slot :: rest =>
      if slot.itemcount = 0 ∧ slot.store_empty = false then
        [FeedAction.store slot.file]
      else
        FeedAction.finish_exporting slot.file :: FeedAction.store slot.file ::
          close_spider rest

/-- The `body` argument of `Response.__init__` as `_set_body` discriminates
it: `None`, a bytes object, or an object of some other type. -/
inductive BodyArg where
  | noneB : BodyArg
  | bytes : List Nat → BodyArg
  | other : String → BodyArg
deriving DecidableEq

/-- Embeds `Response._set_body`: `None` becomes the empty byte string, a
non-bytes value raises `TypeError`, bytes are stored as given. -/
def set_body : BodyArg → Except String (List Nat)
  | BodyArg.noneB => Except.ok []
  | BodyArg.bytes b => Except.ok b
  | BodyArg.other _ =>
      Except.error "Response body must be bytes. If you want to pass unicode body use TextResponse or HtmlResponse."

/-! Helper lemmas about the executor, shared by several claim theorems. -/

/-- A prefix of `process_request` methods that all return `None` on the
request is skipped over. -/
theorem process_request_all_none (st : Tracker) (pre rest : List ReqStage)
    (download_func : Request → DlResult) (request : Request)
    (h : ∀ s ∈ pre, s.fn request = Out.noneOut) :
    process_request st (pre ++ rest) download_func request
      = process_request st rest download_func request := by
  induction pre with
  | nil => rfl
  | cons a as ih =>
      have ha : a.fn request = Out.noneOut := h a (by simp)
      simp only [List.cons_append, process_request, ha]
      exact ih (fun s hs => h s (by simp [hs]))

/-- When every `process_exception` method returns `None`, the original
failure is returned unchanged with the tracker untouched. -/
theorem process_exception_all_none (st : Tracker) (stages : List ExcStage)
    (request : Request) (failure : PipeErr)
    (h : ∀ s ∈ stages, s.fn request failure = Out.noneOut) :
    process_exception st stages request failure = (st, Except.error failure) := by
  induction stages with
  | nil => rfl
  | cons a as ih =>
      have ha : a.fn request failure = Out.noneOut := h a (by simp)
      simp only [process_exception, ha]
      exact ih (fun s hs => h s (by simp [hs]))

/-- If the response loop runs through `xs` without short-circuiting, ending
at tracker `st2` with current response `r2`, then running `xs ++ ys` is
running `ys` from that point. -/
theorem process_response_loop_append (st st2 : Tracker) (xs ys : List RespStage)
    (request : Request) (r r2 : Response)
    (h : process_response_loop st xs request r = (st2, Except.ok (RorR.resp r2))) :
    process_response_loop st (xs ++ ys) request r
      = process_response_loop st2 ys request r2 := by
  induction xs generalizing st r with
  | nil =>
      simp only [process_response_loop] at h
      cases h
      rfl
  | cons a as ih =>
      simp only [process_response_loop] at h ⊢
      cases ha : a.fn request r with
      | noneOut => rw [ha] at h; simp at h
      | resp r3 =>
          rw [ha] at h
          exact ih _ _ h
      | req q => rw [ha] at h; simp at h
      | other ty => rw [ha] at h; simp at h

/-- Once a response has been tracked, it is a member of the tracking set. -/
theorem memTracked_count (st : Tracker) (r : Response) :
    memTracked (count_response_size st r) r.rid = true := by
  by_cases h : memTracked st r.rid
  · rw [count_response_size, if_pos h]
    exact h
  · rw [count_response_size, if_neg h]
    simp [memTracked]

/-- Tracking a response already in the tracking set is a no-op. -/
theorem count_response_size_of_mem (st : Tracker) (r : Response)
    (h : memTracked st r.rid = true) : count_response_size st r = st := by
  simp [count_response_size, h]

/-- Re-tracking immediately after tracking changes nothing. -/
theorem count_response_size_fixed (st : Tracker) (r : Response) :
    count_response_size (count_response_size st r) r = count_response_size st r :=
  count_response_size_of_mem _ _ (memTracked_count st r)

/-- C7: tracking a Response is idempotent — a track call on a Response
already in the tracking set is a no-op — so tracking the same identity any
number of times increases the cumulative counter by that Response's body
length exactly once. -/
theorem c7_track_idempotent (st : Tracker) (r : Response) (n : Nat)
    (h : memTracked st r.rid = false) :
    count_response_size (count_response_size st r) r = count_response_size st r ∧
    ((fun s => count_response_size s r)^[n + 1] st).response_active_size
      = st.response_active_size + r.body.length := by
  refine ⟨count_response_size_fixed st r, ?_⟩
  have hiter : (fun s => count_response_size s r)^[n + 1] st
      = count_response_size st r := by
    rw [Function.iterate_succ_apply]
    exact @Function.iterate_fixed _ (fun s => count_response_size s r)
      (count_response_size st r) (count_response_size_fixed st r) n
  rw [hiter]
  have h2 : ¬ memTracked st r.rid = true := by simp [h]
  rw [count_response_size, if_neg h2]

theorem c7_track_idempotent_witness :
    count_response_size
        (count_response_size (Tracker.mk 0 []) (Response.mk 5 [1, 2, 3]))
        (Response.mk 5 [1, 2, 3])
      = count_response_size (Tracker.mk 0 []) (Response.mk 5 [1, 2, 3]) ∧
    ((fun s => count_response_size s (Response.mk 5 [1, 2, 3]))^[2 + 1]
        (Tracker.mk 0 [])).response_active_size
      = (Tracker.mk 0 []).response_active_size + (Response.mk 5 [1, 2, 3]).body.length :=
  c7_track_idempotent (Tracker.mk 0 []) (Response.mk 5 [1, 2, 3]) 2 (by decide)

/-- C8: the cumulative counter equals the sum of the body lengths of the
responses in the tracking set, and both tracking a response and the automatic
release on finalization preserve this equation. -/
theorem c8_tracker_invariant (st : Tracker) (r : Response) (rid : Nat)
    (h : trackerInv st) :
    trackerInv (count_response_size st r) ∧ trackerInv (finalize_response st rid) := by
  constructor
  · by_cases hm : memTracked st r.rid
    · simpa [count_response_size, hm]
    · unfold trackerInv at h ⊢
      simp only [count_response_size, hm, Bool.false_eq_true, if_false,
        trackedSum_cons]
      push_cast
      omega
  · unfold finalize_response
    split
    next p hp =>
      unfold trackerInv at h ⊢
      unfold discount_response_size
      have hs := trackedSum_removeFirst st.tracked_responses rid p hp
      simp only
      omega
    next => exact h

theorem c8_tracker_invariant_witness :
    trackerInv (Tracker.mk 3 [(1, 3)]) ∧
    (trackerInv (count_response_size (Tracker.mk 3 [(1, 3)]) (Response.mk 2 [9])) ∧
      trackerInv (finalize_response (Tracker.mk 3 [(1, 3)]) 1)) :=
  ⟨by unfold trackerInv trackedSum; decide,
    c8_tracker_invariant (Tracker.mk 3 [(1, 3)]) (Response.mk 2 [9]) 1
      (by unfold trackerInv trackedSum; decide)⟩

/-- C10: `Response._set_body` maps `None` to the empty byte string, rejects
any non-None non-bytes value with a `TypeError`, and stores bytes as given;
hence every constructed Response has a bytes body whose length the tracker
adds when the response is first tracked. -/
theorem c10_set_body (st : Tracker) (b : List Nat) (rid : Nat) (ty : String)
    (h : memTracked st rid = false) :
    set_body BodyArg.noneB = Except.ok [] ∧
    set_body (BodyArg.bytes b) = Except.ok b ∧
    (∃ msg, set_body (BodyArg.other ty) = Except.error msg) ∧
    (count_response_size st (Response.mk rid b)).response_active_size
      = st.response_active_size + b.length := by
  refine ⟨rfl, rfl, ⟨_, rfl⟩, ?_⟩
  have h2 : ¬ memTracked st (Response.mk rid b).rid = true := by simp [h]
  rw [count_response_size, if_neg h2]

theorem c10_set_body_witness :
    set_body BodyArg.noneB = Except.ok [] ∧
    set_body (BodyArg.bytes [4, 5]) = Except.ok [4, 5] ∧
    (∃ msg, set_body (BodyArg.other "int") = Except.error msg) ∧
    (count_response_size (Tracker.mk 0 []) (Response.mk 3 [4, 5])).response_active_size
      = (Tracker.mk 0 []).response_active_size + ([4, 5] : List Nat).length :=
  c10_set_body (Tracker.mk 0 []) [4, 5] 3 "int" (by decide)

/-- The (zero- or one-element) contribution of a middleware to the
`process_request` list. -/
def reqEntry (mw : MW) : List ReqStage :=
  match mw.process_request_method with
  | some f => [ReqStage.mk mw.name f]
  | none => []

/-- The contribution of a middleware to the `process_response` list. -/
def respEntry (mw : MW) : List RespStage :=
  match mw.process_response_method with
  | some f => [RespStage.mk mw.name f]
  | none => []

/-- The contribution of a middleware to the `process_exception` list. -/
def excEntry (mw : MW) : List ExcStage :=
  match mw.process_exception_method with
  | some f => [ExcStage.mk mw.name f]
  | none => []

/-- One `_add_middleware` call appends the request entry and prepends the
response and exception entries. -/
theorem add_middleware_eq (m : Stages) (mw : MW) :
    add_middleware m mw
      = Stages.mk (m.request_methods ++ reqEntry mw)
          (respEntry mw ++ m.response_methods)
          (excEntry mw ++ m.exception_methods) := by
  rcases mw with ⟨name, pr, ps, pe⟩
  cases pr <;> cases ps <;> cases pe <;>
    simp [add_middleware, reqEntry, respEntry, excEntry]

theorem reverse_respEntry (mw : MW) : (respEntry mw).reverse = respEntry mw := by
  rcases mw with ⟨name, pr, ps, pe⟩
  cases ps <;> simp [respEntry]

theorem reverse_excEntry (mw : MW) : (excEntry mw).reverse = excEntry mw := by
  rcases mw with ⟨name, pr, ps, pe⟩
  cases pe <;> simp [excEntry]

/-- Folding `_add_middleware` over a middleware list, from any starting
lists. -/
theorem foldl_add_middleware (mws : List MW) (init : Stages) :
    mws.foldl add_middleware init
      = Stages.mk (init.request_methods ++ mws.flatMap reqEntry)
          ((mws.flatMap respEntry).reverse ++ init.response_methods)
          ((mws.flatMap excEntry).reverse ++ init.exception_methods) := by
  induction mws generalizing init with
  | nil => simp
  | cons a as ih =>
      rw [List.foldl_cons, ih (add_middleware init a), add_middleware_eq]
      simp [List.reverse_append, reverse_respEntry, reverse_excEntry,
        List.append_assoc]

/-- C2: after registration, the `process_request` list holds the registered
middlewares' `process_request` methods in registration order, while the
`process_response` and `process_exception` lists hold the corresponding
methods in exact reverse of registration order. -/
theorem c2_handler_order (mws : List MW) :
    (from_middlewares mws).request_methods = mws.flatMap reqEntry ∧
    (from_middlewares mws).response_methods = (mws.flatMap respEntry).reverse ∧
    (from_middlewares mws).exception_methods = (mws.flatMap excEntry).reverse := by
  unfold from_middlewares
  rw [foldl_add_middleware]
  simp

/-- C1 as stated is false on the code: with no stages registered, the run's
output is the downloaded Response, but the tracker is untouched — the
cumulative counter does not increase by the body length (it stays at 0 for a
5-byte body), because `process_request` returns the download outcome without
calling `_count_response_size` and the `process_response` loop body never
runs. -/
theorem c1_counterexample :
    (download (Tracker.mk 0 []) [] [] []
        (fun _ => DlResult.ok (Response.mk 7 [1, 2, 3, 4, 5])) (Request.mk 1)).2
      = Except.ok (RorR.resp (Response.mk 7 [1, 2, 3, 4, 5])) ∧
    ¬ (download (Tracker.mk 0 []) [] [] []
          (fun _ => DlResult.ok (Response.mk 7 [1, 2, 3, 4, 5])) (Request.mk 1)).1.response_active_size
        = (Tracker.mk 0 []).response_active_size
            + ((Response.mk 7 [1, 2, 3, 4, 5]).body.length : Int) := by
  constructor
  · rfl
  · decide

/-- C1 amended: when every request-stage returns nothing, the download
transport is invoked with the current Request, and when it yields a Response
the run yields that Response, but the downloaded Response is not tracked —
the tracker state is unchanged; in particular, with no stages registered, the
run's output is the downloaded Response and the tracked size is unchanged. -/
theorem c1_download_response_untracked (st : Tracker) (reqs : List ReqStage)
    (excs : List ExcStage) (download_func : Request → DlResult)
    (request : Request) (r : Response)
    (hall : ∀ s ∈ reqs, s.fn request = Out.noneOut)
    (hdl : download_func request = DlResult.ok r) :
    download st reqs [] excs download_func request
      = (st, Except.ok (RorR.resp r)) := by
  have h1 : process_request st reqs download_func request
      = (st, Except.ok (RorR.resp r)) := by
    have h0 := process_request_all_none st reqs [] download_func request hall
    rw [List.append_nil] at h0
    rw [h0]
    simp [process_request, hdl]
  unfold download
  rw [h1]
  rfl

theorem c1_download_response_untracked_witness :
    download (Tracker.mk 0 []) [] [] []
        (fun _ => DlResult.ok (Response.mk 7 [1, 2, 3, 4, 5])) (Request.mk 1)
      = (Tracker.mk 0 [], Except.ok (RorR.resp (Response.mk 7 [1, 2, 3, 4, 5]))) :=
  c1_download_response_untracked (Tracker.mk 0 []) [] []
    (fun _ => DlResult.ok (Response.mk 7 [1, 2, 3, 4, 5])) (Request.mk 1)
    (Response.mk 7 [1, 2, 3, 4, 5]) (by intro s hs; cases hs) rfl

/-- C3: when a request-stage returns a Response (after earlier stages
returned nothing), that Response is tracked, the remaining request-stages and
the download function are never consulted (the result is independent of
them), and the run continues in the response phase with that Response as
input. -/
theorem c3_request_stage_short_circuit (st : Tracker) (pre post : List ReqStage)
    (s : ReqStage) (resp_methods : List RespStage) (exc_methods : List ExcStage)
    (download_func : Request → DlResult) (request : Request) (r : Response)
    (hpre : ∀ t ∈ pre, t.fn request = Out.noneOut)
    (hs : s.fn request = Out.resp r) :
    download st (pre ++ s :: post) resp_methods exc_methods download_func request
      = process_response (count_response_size st r) resp_methods request (RorR.resp r) := by
  have h1 : process_request st (pre ++ s :: post) download_func request
      = (count_response_size st r, Except.ok (RorR.resp r)) := by
    rw [process_request_all_none st pre (s :: post) download_func request hpre]
    simp [process_request, hs]
  unfold download
  rw [h1]

theorem c3_request_stage_short_circuit_witness :
    download (Tracker.mk 0 [])
        ([ReqStage.mk "a" fun _ => Out.noneOut]
          ++ ReqStage.mk "b" (fun _ => Out.resp (Response.mk 2 [9, 9]))
            :: [ReqStage.mk "c" fun _ => Out.other "int"])
        [] [] (fun _ => DlResult.fault (Fault.mk 0)) (Request.mk 1)
      = process_response (count_response_size (Tracker.mk 0 []) (Response.mk 2 [9, 9]))
          [] (Request.mk 1) (RorR.resp (Response.mk 2 [9, 9])) :=
  c3_request_stage_short_circuit (Tracker.mk 0 [])
    [ReqStage.mk "a" fun _ => Out.noneOut]
    [ReqStage.mk "c" fun _ => Out.other "int"]
    (ReqStage.mk "b" fun _ => Out.resp (Response.mk 2 [9, 9]))
    [] [] (fun _ => DlResult.fault (Fault.mk 0)) (Request.mk 1)
    (Response.mk 2 [9, 9])
    (by intro t ht; rw [List.mem_singleton] at ht; subst ht; rfl) rfl

/-- C4: when a response-stage returns a Request (after the earlier
response-stages processed through without short-circuiting), the remaining
response-stages are never consulted (the result is independent of them) and
the run's final output is that Request. -/
theorem c4_response_stage_short_circuit (st st2 : Tracker)
    (pre post : List RespStage) (s : RespStage) (request : Request)
    (r r2 : Response) (q : Request)
    (hpre : process_response_loop st pre request r = (st2, Except.ok (RorR.resp r2)))
    (hs : s.fn request r2 = Out.req q) :
    process_response st (pre ++ s :: post) request (RorR.resp r)
      = (st2, Except.ok (RorR.req q)) := by
  show process_response_loop st (pre ++ s :: post) request r
      = (st2, Except.ok (RorR.req q))
  rw [process_response_loop_append st st2 pre (s :: post) request r r2 hpre]
  simp [process_response_loop, hs]

theorem c4_response_stage_short_circuit_witness :
    process_response (Tracker.mk 0 [])
        ([RespStage.mk "a" fun _ r => Out.resp r]
          ++ RespStage.mk "b" (fun _ _ => Out.req (Request.mk 9))
            :: [RespStage.mk "c" fun _ _ => Out.noneOut])
        (Request.mk 1) (RorR.resp (Response.mk 2 [5]))
      = (count_response_size (Tracker.mk 0 []) (Response.mk 2 [5]),
          Except.ok (RorR.req (Request.mk 9))) :=
  c4_response_stage_short_circuit (Tracker.mk 0 [])
    (count_response_size (Tracker.mk 0 []) (Response.mk 2 [5]))
    [RespStage.mk "a" fun _ r => Out.resp r]
    [RespStage.mk "c" fun _ _ => Out.noneOut]
    (RespStage.mk "b" fun _ _ => Out.req (Request.mk 9))
    (Request.mk 1) (Response.mk 2 [5]) (Response.mk 2 [5]) (Request.mk 9)
    rfl rfl

/-- C5: per-phase return-value validation — a request-stage or
exception-stage returning `None` continues to the next stage without error; a
non-None result that is neither Response nor Request fails the run with an
`_InvalidOutput` naming the offending stage and the received value's type;
and in the response phase any result that is not a Response or a Request,
including `None`, fails the run with `_InvalidOutput`. -/
theorem c5_return_value_validation (st : Tracker)
    (restq : List ReqStage) (reste : List ExcStage) (restr : List RespStage)
    (s1 s2 : ReqStage) (e1 e2 : ExcStage) (p1 p2 : RespStage)
    (download_func : Request → DlResult) (request : Request)
    (failure : PipeErr) (r : Response) (ty1 ty2 ty3 : String)
    (h1 : s1.fn request = Out.noneOut)
    (h2 : s2.fn request = Out.other ty1)
    (h3 : e1.fn request failure = Out.noneOut)
    (h4 : e2.fn request failure = Out.other ty2)
    (h5 : p1.fn request r = Out.noneOut)
    (h6 : p2.fn request r = Out.other ty3) :
    process_request st (s1 :: restq) download_func request
        = process_request st restq download_func request ∧
    process_request st (s2 :: restq) download_func request
        = (st, Except.error (PipeErr.invalidOutput s2.name ty1)) ∧
    process_exception st (e1 :: reste) request failure
        = process_exception st reste request failure ∧
    process_exception st (e2 :: reste) request failure
        = (st, Except.error (PipeErr.invalidOutput e2.name ty2)) ∧
    process_response_loop st (p1 :: restr) request r
        = (st, Except.error (PipeErr.invalidOutput p1.name "NoneType")) ∧
    process_response_loop st (p2 :: restr) request r
        = (st, Except.error (PipeErr.invalidOutput p2.name ty3)) := by
  refine ⟨?_, ?_, ?_, ?_, ?_, ?_⟩ <;>
    simp [process_request, process_exception, process_response_loop,
      h1, h2, h3, h4, h5, h6, Out.tyName]

theorem c5_return_value_validation_witness :
    process_request (Tracker.mk 0 []) [ReqStage.mk "s1" fun _ => Out.noneOut]
        (fun _ => DlResult.fault (Fault.mk 0)) (Request.mk 1)
        = process_request (Tracker.mk 0 []) []
            (fun _ => DlResult.fault (Fault.mk 0)) (Request.mk 1) ∧
    process_request (Tracker.mk 0 []) [ReqStage.mk "s2" fun _ => Out.other "int"]
        (fun _ => DlResult.fault (Fault.mk 0)) (Request.mk 1)
        = (Tracker.mk 0 [], Except.error (PipeErr.invalidOutput "s2" "int")) ∧
    process_exception (Tracker.mk 0 []) [ExcStage.mk "e1" fun _ _ => Out.noneOut]
        (Request.mk 1) (PipeErr.downloadFault (Fault.mk 0))
        = process_exception (Tracker.mk 0 []) [] (Request.mk 1)
            (PipeErr.downloadFault (Fault.mk 0)) ∧
    process_exception (Tracker.mk 0 []) [ExcStage.mk "e2" fun _ _ => Out.other "str"]
        (Request.mk 1) (PipeErr.downloadFault (Fault.mk 0))
        = (Tracker.mk 0 [], Except.error (PipeErr.invalidOutput "e2" "str")) ∧
    process_response_loop (Tracker.mk 0 []) [RespStage.mk "p1" fun _ _ => Out.noneOut]
        (Request.mk 1) (Response.mk 2 [5])
        = (Tracker.mk 0 [], Except.error (PipeErr.invalidOutput "p1" "NoneType")) ∧
    process_response_loop (Tracker.mk 0 []) [RespStage.mk "p2" fun _ _ => Out.other "dict"]
        (Request.mk 1) (Response.mk 2 [5])
        = (Tracker.mk 0 [], Except.error (PipeErr.invalidOutput "p2" "dict")) :=
  c5_return_value_validation (Tracker.mk 0 []) [] [] []
    (ReqStage.mk "s1" fun _ => Out.noneOut) (ReqStage.mk "s2" fun _ => Out.other "int")
    (ExcStage.mk "e1" fun _ _ => Out.noneOut) (ExcStage.mk "e2" fun _ _ => Out.other "str")
    (RespStage.mk "p1" fun _ _ => Out.noneOut) (RespStage.mk "p2" fun _ _ => Out.other "dict")
    (fun _ => DlResult.fault (Fault.mk 0)) (Request.mk 1)
    (PipeErr.downloadFault (Fault.mk 0)) (Response.mk 2 [5])
    "int" "str" "dict" rfl rfl rfl rfl rfl rfl

/-- C6: when the download transport raises a fault and every
exception-stage returns `None`, the original fault is the run's outcome,
unchanged, and the response phase never runs (the result is independent of
the response-stage list); the tracker is untouched. -/
theorem c6_unrecovered_fault_propagates (st : Tracker) (reqs : List ReqStage)
    (resps : List RespStage) (excs : List ExcStage)
    (download_func : Request → DlResult) (request : Request) (f : Fault)
    (h1 : ∀ s ∈ reqs, s.fn request = Out.noneOut)
    (h2 : download_func request = DlResult.fault f)
    (h3 : ∀ s ∈ excs, s.fn request (PipeErr.downloadFault f) = Out.noneOut) :
    download st reqs resps excs download_func request
      = (st, Except.error (PipeErr.downloadFault f)) := by
  have hpr : process_request st reqs download_func request
      = (st, Except.error (PipeErr.downloadFault f)) := by
    have h0 := process_request_all_none st reqs [] download_func request h1
    rw [List.append_nil] at h0
    rw [h0]
    simp [process_request, h2]
  unfold download
  rw [hpr]
  dsimp only
  rw [process_exception_all_none st excs request (PipeErr.downloadFault f) h3]

theorem c6_unrecovered_fault_propagates_witness :
    download (Tracker.mk 0 []) [ReqStage.mk "a" fun _ => Out.noneOut]
        [RespStage.mk "p" fun _ r => Out.resp r]
        [ExcStage.mk "e" fun _ _ => Out.noneOut]
        (fun _ => DlResult.fault (Fault.mk 4)) (Request.mk 1)
      = (Tracker.mk 0 [], Except.error (PipeErr.downloadFault (Fault.mk 4))) :=
  c6_unrecovered_fault_propagates (Tracker.mk 0 [])
    [ReqStage.mk "a" fun _ => Out.noneOut]
    [RespStage.mk "p" fun _ r => Out.resp r]
    [ExcStage.mk "e" fun _ _ => Out.noneOut]
    (fun _ => DlResult.fault (Fault.mk 4)) (Request.mk 1) (Fault.mk 4)
    (by intro t ht; rw [List.mem_singleton] at ht; subst ht; rfl) rfl
    (by intro t ht; rw [List.mem_singleton] at ht; subst ht; rfl)

/-- C9: on close, when the slot list contains a slot with zero exported items
and `store_empty` false, `close_spider` returns early at the first such slot:
the earlier slots are finished and stored, that slot's file is stored (and
not finished), and the remaining slots are neither finished nor stored (the
result is independent of them). -/
theorem c9_close_spider_early_return (pre post : List FeedSlot) (s : FeedSlot)
    (hpre : ∀ p ∈ pre, ¬(p.itemcount = 0 ∧ p.store_empty = false))
    (hs1 : s.itemcount = 0) (hs2 : s.store_empty = false) :
    close_spider (pre ++ s :: post)
      = pre.flatMap
          (fun p => [FeedAction.finish_exporting p.file, FeedAction.store p.file])
        ++ [FeedAction.store s.file] := by
  induction pre with
  | nil => simp [close_spider, hs1, hs2]
  | cons a as ih =>
      have ha := hpre a (by simp)
      rw [List.cons_append, close_spider]
      rw [if_neg ha]
      rw [ih (fun p hp => hpre p (by simp [hp]))]
      simp

theorem c9_close_spider_early_return_witness :
    close_spider ([FeedSlot.mk 10 3 false] ++ FeedSlot.mk 11 0 false
        :: [FeedSlot.mk 12 5 true])
      = [FeedSlot.mk 10 3 false].flatMap
          (fun p => [FeedAction.finish_exporting p.file, FeedAction.store p.file])
        ++ [FeedAction.store (FeedSlot.mk 11 0 false).file] :=
  c9_close_spider_early_return [FeedSlot.mk 10 3 false] [FeedSlot.mk 12 5 true]
    (FeedSlot.mk 11 0 false)
    (by intro p hp; rw [List.mem_singleton] at hp; subst hp; simp) rfl rfl

end Scrapy
